import Mathlib

/-!
Shallow embedding of the zuria_wa WhatsApp gateway (src/src/index.ts, final
revision, lines 1083-1928; the earlier revisions concatenated in the same
file and the files under src/unnamed agree with it on everything the claims
touch).  Pure fragments of the TypeScript are translated into executable
Lean definitions; the Baileys transport and the HTTP framework are kept
abstract, with their observable effects (transport sends, signed webhook
POSTs, HTTP replies) made explicit values.
-/

namespace ZuriaWa

/-! ## JavaScript value helpers

The TypeScript uses `||` (truthy-or), `??` (nullish coalescing) and
`x !== undefined` checks.  `Option String` models `string | null | undefined`
when null and undefined are treated alike; `Option (Option String)` models a
field of an update object where absence (undefined) and an explicit `null`
behave differently. -/

/-- JS `a || b` on `string | undefined` values where `b` is a plain string:
`undefined` and the empty string are falsy. -/
def jsOrStrS (a : Option String) (b : String) : String :=
  match a with
  | some s => if s = "" then b else s
  | none => b

/-- JS truthiness of a `string | null | undefined` value. -/
def jsTruthyStr (a : Option String) : Bool :=
  match a with
  | some s => s ≠ ""
  | none => false

/-- JS `a || b` on two `string | null | undefined` values. -/
def jsOrStr (a b : Option String) : Option String :=
  if jsTruthyStr a then a else b

/-- JS `a || b || null` (used for `chat.name || chat.subject || null` and
`s.meNumber || s.phoneNumber || null`). -/
def jsOrStrNull (a b : Option String) : Option String :=
  if jsTruthyStr a then a else if jsTruthyStr b then b else none

/-- JS `a || null` on a `string | null | undefined` value. -/
def jsStrOrNull (a : Option String) : Option String :=
  if jsTruthyStr a then a else none

/-- JS `Number(a || d)` on a number that may be absent: `0`, `null` and
`undefined` are all falsy (used for `Number(q.limit || 20)`). -/
def jsOrNat (a : Option Nat) (d : Nat) : Nat :=
  match a with
  | some n => if n = 0 then d else n
  | none => d

/-- JS `String(x)` on a `string | undefined` value: `String(undefined)` is
the literal text `"undefined"`. -/
def jsString (a : Option String) : String :=
  match a with
  | some s => s
  | none => "undefined"

/-! ## Insertion-ordered string-keyed map

JS `Map` iterates in insertion order and `set` on an existing key keeps the
entry position; modelled as an association list. -/

abbrev MapSL (α : Type) : Type := List (String × α)

def mapGet {α : Type} : MapSL α → String → Option α
  | [], _ => none
  | p :: rest, k => if p.1 = k then some p.2 else mapGet rest k

/-- `Map.prototype.set`: replace the value in place when the key is present
(a JS `Map` holds each key at most once), append a fresh entry otherwise. -/
def mapSet {α : Type} : MapSL α → String → α → MapSL α
  | [], k, v => [(k, v)]
  | p :: rest, k, v =>
      if p.1 = k then (k, v) :: rest else p :: mapSet rest k v

def mapDelete {α : Type} (m : MapSL α) (k : String) : MapSL α :=
  m.filter (fun p => p.1 ≠ k)

def mapKeys {α : Type} : MapSL α → List String
  | [] => []
  | p :: rest => p.1 :: mapKeys rest

/-! ## String scanning helpers (substring, ends-with, starts-with,
digit prefix extraction, hex encoding) -/

/-- `listStartsWith s p` is true when `p` is an initial segment of `s`. -/
def listStartsWith : List Char → List Char → Bool
  | _, [] => true
  | [], _ :: _ => false
  | a :: as, b :: bs => a == b && listStartsWith as bs

def strStartsWith (s p : String) : Bool := listStartsWith s.data p.data

def strEndsWith (s suf : String) : Bool :=
  listStartsWith s.data.reverse suf.data.reverse

def listContainsSub : List Char → List Char → Bool
  | s, sub =>
    if listStartsWith s sub then true
    else
      match s with
      | [] => false
      | _ :: rest => listContainsSub rest sub

/-- JS `s.includes(sub)`. -/
def strContains (s sub : String) : Bool := listContainsSub s.data sub.data

/-- `extractPhoneFromJid` (src/src/index.ts lines 1202-1206):
`jid.match(/^(\d{5,20})/)` — the greedy run of leading digits capped at 20,
provided there are at least 5; `!jid` guards out null/undefined/empty. -/
def extractPhoneFromJid (jid : Option String) : Option String :=
  match jid with
  | none => none
  | some j =>
    if j = "" then none
    else
      let ds := (j.data.takeWhile Char.isDigit).take 20
      if 5 ≤ ds.length then some (String.mk ds) else none

/-- JS `s.replace(/[^\d]/g, '')`. -/
def digitsOnly (s : String) : String := String.mk (s.data.filter Char.isDigit)

def hexDigitChar (n : Nat) : Char :=
  if n < 10 then Char.ofNat (48 + n) else Char.ofNat (87 + n)

def byteToHex (b : Nat) : String :=
  String.mk [hexDigitChar (b / 16 % 16), hexDigitChar (b % 16)]

/-- `Buffer.toString('hex')` of a byte list: `crypto.randomBytes(32)` gives a
32-byte buffer, hex-encoded to a 64-character secret. -/
def bytesToHex : List Nat → String
  | [] => ""
  | b :: bs => byteToHex b ++ bytesToHex bs

/-! ## Symbolic HMAC-SHA256 (src/src/index.ts lines 1275-1280)

`signBodyHmac` computes `crypto.createHmac('sha256', secret).update(raw)
.digest('hex')`.  The cryptographic hash is modelled symbolically: a
signature is the pair of the secret and the signed message, so two
signatures agree exactly when both inputs agree (a perfect-cryptography
abstraction of HMAC collision resistance). -/

structure HmacSig where
  secret : String
  message : String
deriving DecidableEq, Repr

def hmacSha256 (secret message : String) : HmacSig :=
  { secret := secret, message := message }

/-- Recomputing the HMAC over the body and comparing with the received
signature, as the webhook consumer does. -/
def verifySig (secret message : String) (sig : HmacSig) : Bool :=
  decide (hmacSha256 secret message = sig)

/-! ## Configuration (src/src/index.ts lines 1105-1120)

Environment-derived process-wide constants.  `publicBaseUrl` is stored with
one trailing slash already stripped, exactly as the source computes
`PUBLIC_BASE_URL = (env || default).replace(/\/$/, '')`. -/

structure Config where
  supabaseWebhookUrl : String
  webhookSecret : String
  apiKey : String
  publicBaseUrl : String
  authDir : String
deriving DecidableEq, Repr

/-! ## Data model (src/src/index.ts lines 1127-1164) -/

structure ChatLite where
  id : String
  name : Option String
  subject : Option String
  conversationTimestamp : Option Nat
deriving DecidableEq, Repr

structure ContactEntry where
  notify : Option String
  name : Option String
deriving DecidableEq, Repr

structure SessionState where
  id : String
  qr : Option String
  qrText : Option String
  connected : Bool
  hasSock : Bool
  webhookUrl : Option String
  webhookSecret : Option String
  meId : Option String
  meNumber : Option String
  phoneNumber : Option String
  chats : MapSL ChatLite
  contacts : MapSL ContactEntry
deriving DecidableEq, Repr

abbrev Directory := MapSL SessionState

/-! ## Webhook relay (src/src/index.ts lines 1283-1338) -/

structure SignedPost where
  url : String
  body : String
  signature : HmacSig
deriving DecidableEq, Repr

/-- Secret selection inside `sendWebhookEvent` (lines 1303-1306):
`event === 'session.created' ? WEBHOOK_SECRET : (s.webhookSecret ||
WEBHOOK_SECRET)`. -/
def selectWebhookSecret (cfg : Config) (s : SessionState) (event : String) :
    String :=
  if event = "session.created" then cfg.webhookSecret
  else jsOrStrS s.webhookSecret cfg.webhookSecret

def jsonStrOrNull (o : Option String) : String :=
  match o with
  | some s => "\"" ++ s ++ "\""
  | none => "null"

/-- `JSON.stringify({ sessionId, event, ...payload })` — the canonical body
string the HMAC is computed over (lines 1294-1298). -/
def canonicalBody (sessionId event payloadJson : String) : String :=
  "\x7b\"sessionId\":\"" ++ sessionId ++ "\",\"event\":\"" ++ event
    ++ "\"," ++ payloadJson ++ "\x7d"

/-- `sendWebhookEvent` (lines 1283-1338): drops the event when no
`SUPABASE_WEBHOOK_URL` is configured, otherwise signs the canonical body
with the selected secret and POSTs it with the signature in the
`x-wa-signature` header.  `encodeURIComponent` is the identity on the UUID
session ids this program generates. -/
def sendWebhookEvent (cfg : Config) (s : SessionState)
    (event payloadJson : String) : Option SignedPost :=
  if cfg.supabaseWebhookUrl = "" then none
  else
    let body := canonicalBody s.id event payloadJson
    some { url := cfg.supabaseWebhookUrl ++ "?session_id=" ++ s.id
         , body := body
         , signature := hmacSha256 (selectWebhookSecret cfg s event) body }

/-- Payload of the `session.created` handshake (lines 1593-1599). -/
def createdPayload (sessionSecret : String) (ts : Nat) : String :=
  "\"data\":\x7b\"sessionSecret\":\"" ++ sessionSecret
    ++ "\",\"phone\":null\x7d,\"ts\":" ++ toString ts

/-- Payload of the `session.connected` webhook (lines 1426-1433). -/
def connectedPayload (meId meNumber : Option String) (ts : Nat) : String :=
  "\"data\":\x7b\"jid\":" ++ jsonStrOrNull (jsStrOrNull meId)
    ++ ",\"meId\":" ++ jsonStrOrNull (jsStrOrNull meId)
    ++ ",\"phoneNumber\":" ++ jsonStrOrNull (jsStrOrNull meNumber)
    ++ "\x7d,\"ts\":" ++ toString ts

/-- Payload of the `session.disconnected` webhook (lines 1461-1464 and
1888-1891). -/
def disconnectedPayload (reason : String) (ts : Nat) : String :=
  "\"data\":\x7b\"reason\":\"" ++ reason ++ "\"\x7d,\"ts\":" ++ toString ts

/-- Payload of the `message.out` webhook of `POST /messages`
(lines 1760-1770). -/
def messageOutPayload (s : SessionState) (text : String) (nowMs : Nat) :
    String :=
  "\"data\":\x7b\"fromMe\":true,\"from\":"
    ++ jsonStrOrNull (jsOrStrNull s.meNumber s.phoneNumber)
    ++ ",\"fromJid\":" ++ jsonStrOrNull (jsStrOrNull s.meId)
    ++ ",\"text\":\"" ++ text ++ "\",\"media\":null,\"timestampMs\":"
    ++ toString nowMs ++ "\x7d,\"ts\":" ++ toString nowMs

/-! ## Session lifecycle (src/src/index.ts lines 1523-1602) -/

structure StartResult where
  state : SessionState
  createdWebhook : Option SignedPost
deriving DecidableEq, Repr

/-- `startSession` (lines 1553-1602): builds the in-memory state with a
fresh per-session secret `crypto.randomBytes(32).toString('hex')` and
immediately emits the `session.created` handshake webhook.  The random
bytes drawn are passed in as a parameter. -/
def startSession (cfg : Config) (id : String) (randomBytes : List Nat)
    (nowMs : Nat) : StartResult :=
  let sessionSecret := bytesToHex randomBytes
  let s : SessionState :=
    { id := id, qr := none, qrText := none, connected := false
    , hasSock := true
    , webhookUrl := some cfg.supabaseWebhookUrl
    , webhookSecret := some sessionSecret
    , meId := none, meNumber := none, phoneNumber := none
    , chats := [], contacts := [] }
  { state := s
  , createdWebhook :=
      sendWebhookEvent cfg s "session.created"
        (createdPayload sessionSecret nowMs) }

/-- `restartSession` (lines 1523-1551): tears down the socket, clears the
QR and connected flag and builds a fresh socket on the same state; the
per-session webhook secret is untouched. -/
def restartSessionState (s : SessionState) : SessionState :=
  { s with hasSock := true, connected := false, qr := none, qrText := none }

/-! ## Baileys disconnect codes (src/src/index.ts lines 1263-1272)

`DisconnectReason.restartRequired = 515`, `DisconnectReason.loggedOut = 401`
in the vendored Baileys library. -/

def disconnectReasonRestartRequired : Nat := 515

def disconnectReasonLoggedOut : Nat := 401

/-- `Number(err?.output?.statusCode ?? err?.status ?? err?.code ??
err?.statusCode ?? 0)` — the first available numeric code of the attached
error, `0` when none (lines 1450-1456). -/
def errCodeOf (err : Option Nat) : Nat := err.getD 0

/-- `isRestartRequired` (lines 1263-1272): code 515 or
`DisconnectReason.restartRequired` (also 515). -/
def isRestartRequired (err : Option Nat) : Bool :=
  errCodeOf err == 515 || errCodeOf err == disconnectReasonRestartRequired

/-! ## Connection-update handling (src/src/index.ts lines 1395-1470) -/

/-- Observable outcome of processing one `"close"` connection update. -/
structure CloseOutcome where
  restarts : Bool
  webhooks : List (String × String)
  connectedAfter : Bool
deriving DecidableEq, Repr

/-- The `u.connection === 'close'` branch of `onConnectionUpdate`
(lines 1438-1469): a restart-required code triggers `restartSession` and
returns before any webhook; a `loggedOut` code clears `connected` and emits
exactly one `session.disconnected` webhook with reason `loggedOut`; any
other code just clears `connected` (Baileys retries on its own).
`restartSession` itself (lines 1523-1551) sets `connected := false` and
emits no webhook. -/
def onCloseEvent (err : Option Nat) : CloseOutcome :=
  if isRestartRequired err then
    { restarts := true, webhooks := [], connectedAfter := false }
  else if errCodeOf err == disconnectReasonLoggedOut then
    { restarts := false
      webhooks := [("session.disconnected", "loggedOut")]
      connectedAfter := false }
  else
    { restarts := false, webhooks := [], connectedAfter := false }

structure OpenOutcome where
  state : SessionState
  webhook : Option SignedPost
deriving DecidableEq, Repr

/-- The `u.connection === 'open'` branch of `onConnectionUpdate`
(lines 1413-1436): sets `connected`, clears the QR, captures the self
identity when `u.me?.id` is truthy (`meNumber`/`phoneNumber` from
`extractPhoneFromJid`), and emits the `session.connected` webhook. -/
def onOpenEvent (cfg : Config) (s : SessionState) (meId : Option String)
    (nowMs : Nat) : OpenOutcome :=
  let s1 := { s with connected := true, qr := none, qrText := none }
  let s2 :=
    if jsTruthyStr meId then
      let num := extractPhoneFromJid (some (jsString meId))
      let numOrNull := jsStrOrNull num
      { s1 with meId := meId, meNumber := numOrNull
              , phoneNumber := numOrNull }
    else s1
  { state := s2
  , webhook :=
      sendWebhookEvent cfg s2 "session.connected"
        (connectedPayload s2.meId s2.meNumber nowMs) }

/-! ## Conversation index updates (src/src/index.ts lines 1345-1393 and
1491-1493) -/

/-- `ensureChat` (lines 1345-1347). -/
def ensureChat (id : String) : ChatLite :=
  { id := id, name := none, subject := none, conversationTimestamp := none }

/-- One element of a `chats.set` / `chats.upsert` event.  `name` and
`subject` use a single `Option` because `??` treats null and undefined
alike; `conversationTimestamp` is `none` when not a number. -/
structure ChatUpsert where
  id : String
  name : Option String
  subject : Option String
  conversationTimestamp : Option Nat
deriving DecidableEq, Repr

/-- `setChats` applied to one chat (lines 1350-1365): names merge through
`c.name ?? base.name ?? null`, the timestamp through
`Number(...) || base.conversationTimestamp || 0`. -/
def applyChatUpsert (chats : MapSL ChatLite) (c : ChatUpsert) :
    MapSL ChatLite :=
  let base := (mapGet chats c.id).getD (ensureChat c.id)
  let tsIncoming : Nat := c.conversationTimestamp.getD 0
  let tsStored : Nat :=
    if tsIncoming ≠ 0 then tsIncoming else base.conversationTimestamp.getD 0
  mapSet chats c.id
    { id := c.id
    , name := c.name <|> base.name
    , subject := c.subject <|> base.subject
    , conversationTimestamp := some tsStored }

/-- One element of a `chats.update` event.  Here absence (undefined) and an
explicit `null` differ: the source spreads
`...(u.name !== undefined ? { name: u.name } : {})`, so the outer `Option`
is presence of the field and the inner one its nullability. -/
structure ChatUpdate where
  id : String
  name : Option (Option String)
  subject : Option (Option String)
  conversationTimestamp : Option (Option Nat)
deriving DecidableEq, Repr

/-- The `chats.update` listener applied to one update (lines 1369-1381). -/
def applyChatUpdate (chats : MapSL ChatLite) (u : ChatUpdate) :
    MapSL ChatLite :=
  let base := (mapGet chats u.id).getD (ensureChat u.id)
  mapSet chats u.id
    { id := base.id
    , name := match u.name with | none => base.name | some v => v
    , subject := match u.subject with | none => base.subject | some v => v
    , conversationTimestamp :=
        match u.conversationTimestamp with
        | none => base.conversationTimestamp
        | some v => some (v.getD 0) }

structure ContactUpsert where
  id : String
  notify : Option String
  name : Option String
deriving DecidableEq, Repr

/-- The `contacts.upsert` listener applied to one contact
(lines 1383-1392): records the contact and backfills a chat name only when
the chat exists, its name is falsy and the contact offers a truthy one. -/
def applyContactUpsert (chats : MapSL ChatLite)
    (contacts : MapSL ContactEntry) (c : ContactUpsert) :
    MapSL ChatLite × MapSL ContactEntry :=
  let contacts2 := mapSet contacts c.id { notify := c.notify, name := c.name }
  let chats2 :=
    match mapGet chats c.id with
    | some chat =>
        if !(jsTruthyStr chat.name) && jsTruthyStr (jsOrStr c.notify c.name)
        then mapSet chats c.id { chat with name := jsOrStr c.notify c.name }
        else chats
    | none => chats
  (chats2, contacts2)

/-- The chat-timestamp touch inside `onMessagesUpsert` (lines 1491-1493):
`s.chats.set(remoteJid, { ...base, conversationTimestamp: tsSec })`. -/
def applyMessageChatTouch (chats : MapSL ChatLite) (remoteJid : String)
    (messageTimestamp : Option Nat) : MapSL ChatLite :=
  let base := (mapGet chats remoteJid).getD (ensureChat remoteJid)
  let tsSec := messageTimestamp.getD 0
  mapSet chats remoteJid { base with conversationTimestamp := some tsSec }

/-- A conversation-index event as delivered by the transport listeners
wired in `wireChatContactStores` plus the inbound-message touch. -/
inductive IndexEvent where
  | chatsUpsert (cs : List ChatUpsert)
  | chatsUpdate (us : List ChatUpdate)
  | contactsUpsert (cs : List ContactUpsert)
  | messageTouch (remoteJid : String) (messageTimestamp : Option Nat)
deriving DecidableEq, Repr

def applyIndexEvent (st : MapSL ChatLite × MapSL ContactEntry)
    (ev : IndexEvent) : MapSL ChatLite × MapSL ContactEntry :=
  match ev with
  | .chatsUpsert cs => (cs.foldl applyChatUpsert st.1, st.2)
  | .chatsUpdate us => (us.foldl applyChatUpdate st.1, st.2)
  | .contactsUpsert cs =>
      cs.foldl (fun p c => applyContactUpsert p.1 p.2 c) st
  | .messageTouch jid ts => (applyMessageChatTouch st.1 jid ts, st.2)

def applyIndexEvents (st : MapSL ChatLite × MapSL ContactEntry)
    (evs : List IndexEvent) : MapSL ChatLite × MapSL ContactEntry :=
  evs.foldl applyIndexEvent st

/-! ## Chat pagination (src/src/index.ts lines 1776-1816) -/

/-- `Number(c.conversationTimestamp || 0)`. -/
def tsOfChat (c : ChatLite) : Nat := c.conversationTimestamp.getD 0

/-- Stable insertion of a chat into a list already sorted by timestamp
descending: the new element goes before the first strictly older entry,
after entries with an equal timestamp. -/
def insertByTsDesc (c : ChatLite) : List ChatLite → List ChatLite
  | [] => [c]
  | d :: ds =>
      if tsOfChat d ≤ tsOfChat c then c :: d :: ds
      else d :: insertByTsDesc c ds

/-- The stable descending sort `raw.sort((a, b) => tb - ta)`
(`Array.prototype.sort` is stable, so any stable sorting algorithm computes
the same list). -/
def sortByTsDesc : List ChatLite → List ChatLite
  | [] => []
  | c :: cs => insertByTsDesc c (sortByTsDesc cs)

structure ChatView where
  chatJid : String
  chatNumber : Option String
  chatName : Option String
  lastTsMs : Nat
deriving DecidableEq, Repr

def chatViewOf (c : ChatLite) : ChatView :=
  { chatJid := c.id
  , chatNumber := extractPhoneFromJid (some c.id)
  , chatName := jsOrStrNull c.name c.subject
  , lastTsMs := tsOfChat c * 1000 }

structure ChatsPage where
  chats : List ChatView
  nextBeforeTs : Option Nat
deriving DecidableEq, Repr

/-- The body of `GET /sessions/:id/chats` after the guards
(lines 1786-1815): limit clamped to 50 with default 20, sort descending,
keep entries strictly before the cursor when one is given, truncate, and
set the next cursor to the last returned entry's timestamp — `null` exactly
when the page is empty. -/
def listChats (chats : MapSL ChatLite) (qLimit : Option Nat)
    (qBeforeTs : Option Nat) : ChatsPage :=
  let limit := min (jsOrNat qLimit 20) 50
  let beforeTs := qBeforeTs.getD 0
  let raw := chats.map (fun p => p.2)
  let sorted := sortByTsDesc raw
  let filtered :=
    if beforeTs > 0 then sorted.filter (fun c => tsOfChat c * 1000 < beforeTs)
    else sorted
  let page := filtered.take limit
  { chats := page.map chatViewOf
  , nextBeforeTs := page.getLast?.map (fun c => tsOfChat c * 1000) }

/-! ## HTTP handlers (src/src/index.ts lines 1707-1908) -/

inductive HandlerReply (α : Type) where
  | success (payload : α)
  | failure (status : Nat) (error : String)
deriving DecidableEq, Repr

def HandlerReply.statusCode {α : Type} : HandlerReply α → Nat
  | .success _ => 200
  | .failure c _ => c

/-- The API-key guard used by the send and chat routes: rejects when an
`API_KEY` is configured and the `x-api-key` header is missing, empty or
different. -/
def apiKeyRejected (cfg : Config) (hdr : Option String) : Bool :=
  if cfg.apiKey = "" then false
  else
    match hdr with
    | none => true
    | some h => h = "" || h ≠ cfg.apiKey

structure StatusView where
  sessionId : String
  connected : Bool
  qr : Option String
  qrText : Option String
  phoneNumber : Option String
  meNumber : Option String
  meId : Option String
  hasSock : Bool
deriving DecidableEq, Repr

/-- `GET /sessions/:id` (lines 1717-1732): 404 `unknown session` when the
id is not in the in-memory directory, otherwise the status view. -/
def getSessionHandler (dir : Directory) (id : String) :
    HandlerReply StatusView :=
  match mapGet dir id with
  | none => .failure 404 "unknown session"
  | some s =>
      .success
        { sessionId := id, connected := s.connected
        , qr := jsStrOrNull s.qr, qrText := jsStrOrNull s.qrText
        , phoneNumber := jsStrOrNull s.phoneNumber
        , meNumber := jsStrOrNull s.meNumber
        , meId := jsStrOrNull s.meId
        , hasSock := s.hasSock }

/-- `POST /sessions/:id/restart` (lines 1735-1741): 404 on unknown id,
otherwise restart in place and reply `{ ok: true }`. -/
def postRestartHandler (dir : Directory) (id : String) :
    HandlerReply Bool × Directory :=
  match mapGet dir id with
  | none => (.failure 404 "unknown session", dir)
  | some s => (.success true, mapSet dir id (restartSessionState s))

structure TransportSend where
  jid : String
  text : String
  dispatchedAtMs : Nat
deriving DecidableEq, Repr

structure MessagesOutcome where
  reply : HandlerReply Bool
  sends : List TransportSend
  webhook : Option SignedPost
deriving DecidableEq, Repr

/-- `POST /messages` (lines 1744-1773): API-key guard, then
`sessions.get(sessionId)`; a missing session or one without a socket gets
400 `session not ready`; otherwise the message is sent to the transport
immediately (`await s.sock.sendMessage(...)` with no queue, counter or
delay of any kind) and a `message.out` webhook is emitted. -/
def postMessagesHandler (cfg : Config) (dir : Directory)
    (apiKeyHeader sessionId toField text : Option String) (nowMs : Nat) :
    MessagesOutcome :=
  if apiKeyRejected cfg apiKeyHeader then
    { reply := .failure 401 "unauthorized", sends := [], webhook := none }
  else
    match sessionId.bind (mapGet dir) with
    | none =>
        { reply := .failure 400 "session not ready", sends := []
        , webhook := none }
    | some s =>
        if !s.hasSock then
          { reply := .failure 400 "session not ready", sends := []
          , webhook := none }
        else
          let jid := digitsOnly (jsString toField) ++ "@s.whatsapp.net"
          let txt := jsOrStrS text ""
          { reply := .success true
          , sends := [{ jid := jid, text := txt, dispatchedAtMs := nowMs }]
          , webhook :=
              sendWebhookEvent cfg s "message.out"
                (messageOutPayload s txt nowMs) }

/-- One `POST /messages` request (`toField` is the JSON body field `to`,
which is a reserved word in Lean). -/
structure SendRequest where
  apiKeyHeader : Option String
  sessionId : Option String
  toField : Option String
  text : Option String
  arrivalMs : Nat
deriving DecidableEq, Repr

/-- A burst of `POST /messages` requests processed one after the other at
their arrival instants on a simulated clock.  The handler performs the
transport send inline, so the directory is unchanged between requests. -/
def processSendBurst (cfg : Config) (dir : Directory)
    (reqs : List SendRequest) : List TransportSend :=
  (reqs.map (fun r =>
    (postMessagesHandler cfg dir r.apiKeyHeader r.sessionId r.toField r.text
      r.arrivalMs).sends)).flatten

/-- `GET /sessions/:id/chats` (lines 1776-1816): an absent session or one
without a socket gets 400 `session not ready` (this guard runs before the
API-key check), then the pagination body. -/
def getChatsHandler (cfg : Config) (dir : Directory) (id : String)
    (apiKeyHeader : Option String) (qLimit qBeforeTs : Option Nat) :
    HandlerReply ChatsPage :=
  match mapGet dir id with
  | none => .failure 400 "session not ready"
  | some s =>
      if !s.hasSock then .failure 400 "session not ready"
      else if apiKeyRejected cfg apiKeyHeader then .failure 401 "unauthorized"
      else .success (listChats s.chats qLimit qBeforeTs)

structure LogoutOutcome where
  reply : HandlerReply Bool
  dir : Directory
  credsPurged : List String
  webhook : Option SignedPost
  warnedTransportFailure : Bool
deriving DecidableEq, Repr

/-- `POST /sessions/:id/logout` (lines 1877-1908): 404 on unknown id;
otherwise the transport-level `s.sock.logout()` is attempted inside a
try/catch whose failure is only logged (`warnedTransportFailure`), a
`session.disconnected` webhook with reason `manual_logout` is emitted, the
socket is torn down, the auth folder `AUTH_DIR/<id>` is deleted and the id
is removed from the directory; the reply is `{ ok: true, loggedOut: true }`
in every non-404 case. -/
def logoutHandler (cfg : Config) (dir : Directory) (id : String)
    (transportLogoutFails : Bool) (nowMs : Nat) : LogoutOutcome :=
  match mapGet dir id with
  | none =>
      { reply := .failure 404 "unknown session", dir := dir
      , credsPurged := [], webhook := none, warnedTransportFailure := false }
  | some s =>
      let warned := s.hasSock && transportLogoutFails
      { reply := .success true
      , dir := mapDelete dir id
      , credsPurged := [cfg.authDir ++ "/" ++ id]
      , webhook :=
          sendWebhookEvent cfg s "session.disconnected"
            (disconnectedPayload "manual_logout" nowMs)
      , warnedTransportFailure := warned }

/-! ## Media ingest (src/src/index.ts lines 1208-1261) -/

/-- `guessExt` (lines 1208-1221): substring lookup table from MIME type to
file extension, falling back to `bin`. -/
def guessExt (mime : Option String) : String :=
  match mime with
  | none => "bin"
  | some m =>
    if m = "" then "bin"
    else if strContains m "jpeg" then "jpg"
    else if strContains m "jpg" then "jpg"
    else if strContains m "png" then "png"
    else if strContains m "webp" then "webp"
    else if strContains m "gif" then "gif"
    else if strContains m "mp4" then "mp4"
    else if strContains m "mpeg" then "mp3"
    else if strContains m "ogg" then "ogg"
    else if strContains m "opus" then "ogg"
    else if strContains m "pdf" then "pdf"
    else "bin"

structure MediaDescriptor where
  filename : String
  mimeType : String
  url : String
deriving DecidableEq, Repr

/-- The descriptor construction of `saveIncomingMedia` (lines 1253-1260):
`mediaObj.mimetype || 'application/octet-stream'`, a
timestamp-plus-random-suffix filename with the guessed extension, and the
public URL `PUBLIC_BASE_URL + '/media/' + filename`. -/
def buildMediaDescriptor (cfg : Config) (declaredMime : Option String)
    (nowMs : Nat) (randSuffix : String) : MediaDescriptor :=
  let mimeType := jsOrStrS declaredMime "application/octet-stream"
  let ext := guessExt (some mimeType)
  let filename := toString nowMs ++ "-" ++ randSuffix ++ "." ++ ext
  { filename := filename, mimeType := mimeType
  , url := cfg.publicBaseUrl ++ "/media/" ++ filename }

/-! ## Concrete fixtures used to instantiate the theorems below -/

/-- A concrete environment configuration. -/
def sampleConfig : Config :=
  { supabaseWebhookUrl :=
      "https://hook.example/functions/v1/whatsapp-webhook-gateway"
  , webhookSecret := "global-bootstrap-secret"
  , apiKey := ""
  , publicBaseUrl := "https://zuria-wa.onrender.com"
  , authDir := "./.wa" }

/-- A directory holding one freshly started (socket-bearing) session. -/
def burstDir : Directory :=
  [("s-3", (startSession sampleConfig "s-3" [3, 14] 0).state)]

/-- A freshly started session used for the open-event scenarios. -/
def openSession : SessionState :=
  (startSession sampleConfig "s-8" [1, 2] 0).state

/-- Two send requests for the same session arriving 1000 ms apart, well
inside one rolling minute. -/
def burstRequests : List SendRequest :=
  [ { apiKeyHeader := none, sessionId := some "s-3"
    , toField := some "41760000000", text := some "first", arrivalMs := 0 }
  , { apiKeyHeader := none, sessionId := some "s-3"
    , toField := some "41760000000", text := some "second"
    , arrivalMs := 1000 } ]

/-- Five chats with distinct activity timestamps (seconds 10..50), built
through the `chats.upsert` path. -/
def fiveChats : MapSL ChatLite :=
  (applyIndexEvents ([], [])
    [IndexEvent.chatsUpsert
      [ { id := "11111@s.whatsapp.net", name := some "A", subject := none
        , conversationTimestamp := some 10 }
      , { id := "22222@s.whatsapp.net", name := some "B", subject := none
        , conversationTimestamp := some 20 }
      , { id := "33333@s.whatsapp.net", name := some "C", subject := none
        , conversationTimestamp := some 30 }
      , { id := "44444@s.whatsapp.net", name := some "D", subject := none
        , conversationTimestamp := some 40 }
      , { id := "55555@s.whatsapp.net", name := some "E", subject := none
        , conversationTimestamp := some 50 } ]]).1

/-- A one-chat store whose entry has a known display name. -/
def namedChat : MapSL ChatLite :=
  applyChatUpsert []
    { id := "77777@s.whatsapp.net", name := some "Alice", subject := none
    , conversationTimestamp := some 5 }

/-- Claim C1 as a property of a configuration and a session freshly
created by `startSession` with randomness `rb`: `session.created` is
signed with the process-wide bootstrap secret, every other event kind with
the session's own secret (the hex encoding of `rb`, generated once at
creation and kept across restarts), and a `session.connected` envelope
verifies against the session secret but not against the bootstrap
secret. -/
def bootstrapVsSessionSecretProp (cfg : Config) (id : String)
    (rb : List Nat) (nowMs : Nat) : Prop :=
  let s := (startSession cfg id rb nowMs).state
  (∀ p, (sendWebhookEvent cfg s "session.created" p).map
          (fun w => w.signature)
      = some (hmacSha256 cfg.webhookSecret
          (canonicalBody id "session.created" p)))
  ∧ (∀ ev p, ev ≠ "session.created" →
      (sendWebhookEvent cfg s ev p).map (fun w => w.signature)
        = some (hmacSha256 (bytesToHex rb) (canonicalBody id ev p)))
  ∧ (∀ p w, sendWebhookEvent cfg s "session.connected" p = some w →
      verifySig (bytesToHex rb) w.body w.signature = true
      ∧ verifySig cfg.webhookSecret w.body w.signature = false)
  ∧ (restartSessionState s).webhookSecret = s.webhookSecret

end ZuriaWa

namespace ZuriaWa

/-! ### Helper lemmas: association-list map -/

theorem mapGet_mapSet_self {α : Type} (m : MapSL α) (k : String) (v : α) :
    mapGet (mapSet m k v) k = some v := by
  induction m with
  | nil => simp [mapSet, mapGet]
  | cons p rest ih =>
    by_cases h : p.1 = k
    · simp [mapSet, mapGet, h]
    · simp [mapSet, mapGet, h, ih]

theorem mapGet_mapSet_other {α : Type} (m : MapSL α) (k j : String) (v : α)
    (hne : j ≠ k) : mapGet (mapSet m k v) j = mapGet m j := by
  induction m with
  | nil => simp [mapSet, mapGet, hne.symm]
  | cons p rest ih =>
    by_cases h : p.1 = k
    · simp [mapSet, mapGet, h, hne.symm]
    · simp [mapSet, mapGet, h, ih]

theorem mapGet_mapDelete_self {α : Type} (m : MapSL α) (k : String) :
    mapGet (mapDelete m k) k = none := by
  induction m with
  | nil => rfl
  | cons p rest ih =>
    by_cases h : p.1 = k
    · simpa [mapDelete, h] using ih
    · simpa [mapDelete, List.filter, mapGet, h] using ih

theorem mem_mapKeys_mapSet {α : Type} (m : MapSL α) (k x : String) (v : α)
    (hx : x ∈ mapKeys (mapSet m k v)) : x ∈ mapKeys m ∨ x = k := by
  induction m with
  | nil =>
    simp [mapSet, mapKeys] at hx
    exact Or.inr hx
  | cons p rest ih =>
    by_cases h : p.1 = k
    · have hs : mapSet (p :: rest) k v = (k, v) :: rest := by simp [mapSet, h]
      rw [hs] at hx
      rcases List.mem_cons.mp hx with h1 | h1
      · exact Or.inr h1
      · exact Or.inl (List.mem_cons.mpr (Or.inr h1))
    · have hs : mapSet (p :: rest) k v = p :: mapSet rest k v := by
        simp [mapSet, h]
      rw [hs] at hx
      rcases List.mem_cons.mp hx with h1 | h1
      · exact Or.inl (List.mem_cons.mpr (Or.inl h1))
      · rcases ih h1 with h2 | h2
        · exact Or.inl (List.mem_cons.mpr (Or.inr h2))
        · exact Or.inr h2

theorem mapKeys_mapSet_nodup {α : Type} (m : MapSL α) (k : String) (v : α)
    (h : (mapKeys m).Nodup) : (mapKeys (mapSet m k v)).Nodup := by
  induction m with
  | nil => simp [mapSet, mapKeys]
  | cons p rest ih =>
    have h1 := (List.nodup_cons.mp h).1
    have h2 := (List.nodup_cons.mp h).2
    by_cases hk : p.1 = k
    · have hs : mapSet (p :: rest) k v = (k, v) :: rest := by simp [mapSet, hk]
      rw [hs]
      exact List.nodup_cons.mpr ⟨hk ▸ h1, h2⟩
    · have hs : mapSet (p :: rest) k v = p :: mapSet rest k v := by
        simp [mapSet, hk]
      rw [hs]
      refine List.nodup_cons.mpr ⟨fun hx => ?_, ih h2⟩
      rcases mem_mapKeys_mapSet rest k p.1 v hx with hmem | heq
      · exact h1 hmem
      · exact hk heq

/-! ### Helper lemmas: strings -/

theorem listStartsWith_self_append (p t : List Char) :
    listStartsWith (p ++ t) p = true := by
  induction p with
  | nil => cases t <;> rfl
  | cons a as ih => simp [listStartsWith, ih]

theorem strEndsWith_of_data (s suf : String) (t : List Char)
    (h : s.data = t ++ suf.data) : strEndsWith s suf = true := by
  simp only [strEndsWith, h, List.reverse_append]
  exact listStartsWith_self_append _ _

theorem strStartsWith_of_data (s p : String) (t : List Char)
    (h : s.data = p.data ++ t) : strStartsWith s p = true := by
  simp only [strStartsWith, h]
  exact listStartsWith_self_append _ _

theorem bytesToHex_ne_empty (bs : List Nat) (h : bs ≠ []) :
    bytesToHex bs ≠ "" := by
  match bs, h with
  | b :: rest, _ =>
    intro hcontra
    have hdata := congrArg String.data hcontra
    simp [bytesToHex, byteToHex, String.data_append] at hdata

/-- C1: `sendWebhookEvent` signs the outgoing envelope with the
process-wide bootstrap secret exactly when the event kind is
`session.created`, and with the session's own secret — generated once at
session creation from 32 random bytes and preserved across restarts — for
every other event kind; consequently a later `session.connected` envelope
for the same session verifies against the session secret and not against
the bootstrap secret.  Hypotheses: a webhook URL is configured, the
creation randomness is nonempty (a real `randomBytes(32)` draw always is),
and the generated session secret differs from the bootstrap secret. -/
theorem C1_bootstrap_vs_session_secret (cfg : Config) (id : String)
    (rb : List Nat) (nowMs : Nat)
    (hurl : cfg.supabaseWebhookUrl ≠ "")
    (hrb : rb ≠ [])
    (hdist : bytesToHex rb ≠ cfg.webhookSecret) :
    bootstrapVsSessionSecretProp cfg id rb nowMs := by
  have hsec := bytesToHex_ne_empty rb hrb
  unfold bootstrapVsSessionSecretProp
  refine ⟨fun p => ?_, fun ev p hev => ?_, fun p w hw => ?_, rfl⟩
  · simp [startSession, sendWebhookEvent, selectWebhookSecret, hurl]
  · simp [startSession, sendWebhookEvent, selectWebhookSecret, hurl, hev,
      jsOrStrS, hsec]
  · simp only [startSession, sendWebhookEvent, selectWebhookSecret,
      jsOrStrS, if_neg hurl] at hw
    simp only [if_neg (by decide : ¬ ("session.connected" = "session.created")),
      if_neg hsec, Option.some.injEq] at hw
    subst hw
    constructor
    · simp [verifySig]
    · simp [verifySig, hmacSha256, HmacSig.mk.injEq]
      intro hcontra
      exact absurd hcontra.symm hdist

/-- C1 witness: the selection and verification property at a concrete
configuration, session id and randomness. -/
theorem C1_bootstrap_vs_session_secret_witness :
    sampleConfig.supabaseWebhookUrl ≠ ""
    ∧ ([7, 31] : List Nat) ≠ []
    ∧ bytesToHex [7, 31] ≠ sampleConfig.webhookSecret
    ∧ bootstrapVsSessionSecretProp sampleConfig "s-1" [7, 31] 1000 :=
  ⟨by decide, by decide, by decide,
    C1_bootstrap_vs_session_secret sampleConfig "s-1" [7, 31] 1000
      (by decide) (by decide) (by decide)⟩

/-- C2: a `"closed"` transport event with the transient restart-required
code (515) triggers an automatic restart and emits no webhook at all (so
the session is never marked logged out and no `session.disconnected`
fires), while the permanent credentials-revoked code (401,
`DisconnectReason.loggedOut`) never triggers a restart and emits exactly
one `session.disconnected` webhook with reason `"loggedOut"`. -/
theorem C2_close_transient_vs_permanent :
    (onCloseEvent (some disconnectReasonRestartRequired)).restarts = true
    ∧ (onCloseEvent (some disconnectReasonRestartRequired)).webhooks = []
    ∧ (onCloseEvent (some disconnectReasonLoggedOut)).restarts = false
    ∧ (onCloseEvent (some disconnectReasonLoggedOut)).webhooks
        = [("session.disconnected", "loggedOut")] := by
  decide

end ZuriaWa

namespace ZuriaWa

/-- C6: explicit logout is unconditional locally — when the session is in
the directory, the handler replies `{ ok: true, loggedOut: true }` with
status 200, removes the session from the in-memory directory and purges
the credential directory `AUTH_DIR/<id>`, and every one of those outcomes
is identical whether the transport-level `logout()` call succeeded or
threw (the failure is only logged, never surfaced). -/
theorem C6_logout_unconditional (cfg : Config) (dir : Directory)
    (id : String) (s : SessionState) (fails : Bool) (nowMs : Nat)
    (hfound : mapGet dir id = some s) :
    (logoutHandler cfg dir id fails nowMs).reply = .success true
    ∧ (logoutHandler cfg dir id fails nowMs).reply.statusCode = 200
    ∧ mapGet (logoutHandler cfg dir id fails nowMs).dir id = none
    ∧ (logoutHandler cfg dir id fails nowMs).credsPurged
        = [cfg.authDir ++ "/" ++ id]
    ∧ (logoutHandler cfg dir id true nowMs).reply
        = (logoutHandler cfg dir id false nowMs).reply
    ∧ (logoutHandler cfg dir id true nowMs).dir
        = (logoutHandler cfg dir id false nowMs).dir
    ∧ (logoutHandler cfg dir id true nowMs).credsPurged
        = (logoutHandler cfg dir id false nowMs).credsPurged := by
  simp only [logoutHandler, hfound]
  simp [HandlerReply.statusCode, mapGet_mapDelete_self]

/-- C6 witness: the logout outcome at a concrete directory holding one
session, with the transport call failing. -/
theorem C6_logout_unconditional_witness :
    mapGet burstDir "s-3"
      = some (startSession sampleConfig "s-3" [3, 14] 0).state
    ∧ ((logoutHandler sampleConfig burstDir "s-3" true 5).reply
          = .success true
      ∧ (logoutHandler sampleConfig burstDir "s-3" true 5).reply.statusCode
          = 200
      ∧ mapGet (logoutHandler sampleConfig burstDir "s-3" true 5).dir "s-3"
          = none
      ∧ (logoutHandler sampleConfig burstDir "s-3" true 5).credsPurged
          = [sampleConfig.authDir ++ "/" ++ "s-3"]
      ∧ (logoutHandler sampleConfig burstDir "s-3" true 5).reply
          = (logoutHandler sampleConfig burstDir "s-3" false 5).reply
      ∧ (logoutHandler sampleConfig burstDir "s-3" true 5).dir
          = (logoutHandler sampleConfig burstDir "s-3" false 5).dir
      ∧ (logoutHandler sampleConfig burstDir "s-3" true 5).credsPurged
          = (logoutHandler sampleConfig burstDir "s-3" false 5).credsPurged) :=
  ⟨by decide,
    C6_logout_unconditional sampleConfig burstDir "s-3"
      (startSession sampleConfig "s-3" [3, 14] 0).state true 5 (by decide)⟩

/-- C10: after a successful explicit logout of a session id, the id is
gone from the in-memory directory, so a subsequent `GET /sessions/:id`
returns the 404 `unknown session` response rather than any queryable
state. -/
theorem C10_logout_then_status_404 (cfg : Config) (dir : Directory)
    (id : String) (s : SessionState) (fails : Bool) (nowMs : Nat)
    (hfound : mapGet dir id = some s) :
    (logoutHandler cfg dir id fails nowMs).reply = .success true
    ∧ getSessionHandler (logoutHandler cfg dir id fails nowMs).dir id
        = .failure 404 "unknown session" := by
  simp only [logoutHandler, hfound]
  simp [getSessionHandler, mapGet_mapDelete_self]

/-- C10 witness: logging out the concrete session then querying its
status yields the 404 reply. -/
theorem C10_logout_then_status_404_witness :
    mapGet burstDir "s-3"
      = some (startSession sampleConfig "s-3" [3, 14] 0).state
    ∧ ((logoutHandler sampleConfig burstDir "s-3" false 5).reply
          = .success true
      ∧ getSessionHandler
          (logoutHandler sampleConfig burstDir "s-3" false 5).dir "s-3"
          = .failure 404 "unknown session") :=
  ⟨by decide,
    C10_logout_then_status_404 sampleConfig burstDir "s-3"
      (startSession sampleConfig "s-3" [3, 14] 0).state false 5 (by decide)⟩

/-- C7 counterexample: a `POST /messages` naming a session id absent from
the directory answers 400 `session not ready`, not 404, and so does
`GET /sessions/:id/chats`; the claim that every route (including send and
pagination) answers 404 for an unknown session id is therefore false. -/
theorem C7_counterexample :
    (postMessagesHandler sampleConfig [] none (some "missing-id")
      (some "41760000000") (some "hello") 0).reply.statusCode = 400
    ∧ ¬ (postMessagesHandler sampleConfig [] none (some "missing-id")
      (some "41760000000") (some "hello") 0).reply.statusCode = 404
    ∧ (getChatsHandler sampleConfig [] "missing-id" none none
        none).statusCode = 400
    ∧ ¬ (getChatsHandler sampleConfig [] "missing-id" none none
        none).statusCode = 404 := by
  decide

/-- C7 amended: for a session id not present in the directory, the status,
restart and logout routes answer 404 `unknown session`, while the send
route (`POST /messages`) and the chat pagination route answer 400
`session not ready` (assuming the API-key guard passes). -/
theorem C7_amended_unknown_session_statuses (cfg : Config)
    (dir : Directory) (id : String) (hdr toField text : Option String)
    (nowMs : Nat) (qLimit qBeforeTs : Option Nat) (fails : Bool)
    (hmissing : mapGet dir id = none)
    (hkey : apiKeyRejected cfg hdr = false) :
    (getSessionHandler dir id).statusCode = 404
    ∧ (postRestartHandler dir id).1.statusCode = 404
    ∧ (logoutHandler cfg dir id fails nowMs).reply.statusCode = 404
    ∧ (postMessagesHandler cfg dir hdr (some id) toField text
        nowMs).reply.statusCode = 400
    ∧ (getChatsHandler cfg dir id hdr qLimit qBeforeTs).statusCode
        = 400 := by
  refine ⟨?_, ?_, ?_, ?_, ?_⟩ <;>
    simp [getSessionHandler, postRestartHandler, logoutHandler,
      postMessagesHandler, getChatsHandler, hmissing, hkey,
      HandlerReply.statusCode]

/-- C7 amended witness: the five status codes at a concrete empty
directory. -/
theorem C7_amended_unknown_session_statuses_witness :
    mapGet ([] : Directory) "missing-id" = none
    ∧ apiKeyRejected sampleConfig none = false
    ∧ ((getSessionHandler [] "missing-id").statusCode = 404
      ∧ (postRestartHandler [] "missing-id").1.statusCode = 404
      ∧ (logoutHandler sampleConfig [] "missing-id" false
          0).reply.statusCode = 404
      ∧ (postMessagesHandler sampleConfig [] none (some "missing-id")
          (some "41760000000") (some "hello") 0).reply.statusCode = 400
      ∧ (getChatsHandler sampleConfig [] "missing-id" none none
          none).statusCode = 400) :=
  ⟨by decide, by decide,
    C7_amended_unknown_session_statuses sampleConfig [] "missing-id" none
      (some "41760000000") (some "hello") 0 none none false
      (by decide) (by decide)⟩

/-- C8 counterexample: processing an `"open"` connection event with self id
`"1234@domain"` does set the session Connected, but the status reports
`phoneNumber = null`, not `"1234"`: `extractPhoneFromJid` demands 5 to 20
leading digits (`/^(\d{5,20})/`) and `"1234"` has only 4. -/
theorem C8_counterexample :
    (onOpenEvent sampleConfig openSession (some "1234@domain")
      0).state.connected = true
    ∧ (onOpenEvent sampleConfig openSession (some "1234@domain")
      0).state.phoneNumber = none
    ∧ ¬ (onOpenEvent sampleConfig openSession (some "1234@domain")
      0).state.phoneNumber = some "1234"
    ∧ getSessionHandler
        (mapSet [("s-8", openSession)] "s-8"
          (onOpenEvent sampleConfig openSession (some "1234@domain")
            0).state)
        "s-8"
      = .success
          { sessionId := "s-8", connected := true, qr := none
          , qrText := none, phoneNumber := none, meNumber := none
          , meId := some "1234@domain", hasSock := true } := by
  decide

/-- C8 amended: an `"open"` event always reports Connected; the phone
number is the extracted digit prefix of the self jid only when that run
has at least 5 (and at most 20) digits, so `"12345@domain"` yields
phoneNumber `"12345"` while `"1234@domain"` yields a null phoneNumber —
in general any jid whose leading digit run is shorter than 5 extracts to
null. -/
theorem C8_amended_open_event :
    (∀ j : String, (j.data.takeWhile Char.isDigit).length < 5 →
        extractPhoneFromJid (some j) = none)
    ∧ (onOpenEvent sampleConfig openSession (some "12345@domain")
        0).state.connected = true
    ∧ (onOpenEvent sampleConfig openSession (some "12345@domain")
        0).state.phoneNumber = some "12345"
    ∧ (onOpenEvent sampleConfig openSession (some "1234@domain")
        0).state.connected = true
    ∧ (onOpenEvent sampleConfig openSession (some "1234@domain")
        0).state.phoneNumber = none := by
  refine ⟨fun j hj => ?_, by decide, by decide, by decide, by decide⟩
  unfold extractPhoneFromJid
  by_cases hempty : j = ""
  · simp [hempty]
  · have hlen : ((j.data.takeWhile Char.isDigit).take 20).length
        = min 20 (j.data.takeWhile Char.isDigit).length :=
      List.length_take 20 _
    simp only [if_neg hempty]
    rw [if_neg (by omega)]

end ZuriaWa

namespace ZuriaWa

theorem strEndsWith_dot_ext (x ext : String) :
    strEndsWith (x ++ "." ++ ext) ("." ++ ext) = true := by
  apply strEndsWith_of_data _ _ x.data
  simp [String.data_append]

theorem strStartsWith_append_append (a b c : String) :
    strStartsWith (a ++ b ++ c) a = true := by
  apply strStartsWith_of_data _ _ (b.data ++ c.data)
  simp [String.data_append]

/-- C9: a media descriptor built from declared MIME type `"image/png"` has
a filename ending in `.png`, a URL starting with the configured public
base URL, and keeps the declared MIME type; a missing MIME type (which
`saveIncomingMedia` first defaults to `application/octet-stream`) and any
MIME type matching none of the lookup table's substrings fall back to the
generic `.bin` extension. -/
theorem C9_media_descriptor (cfg : Config) (nowMs : Nat) (rand : String)
    (m : String) (hne : m ≠ "")
    (h1 : strContains m "jpeg" = false) (h2 : strContains m "jpg" = false)
    (h3 : strContains m "png" = false) (h4 : strContains m "webp" = false)
    (h5 : strContains m "gif" = false) (h6 : strContains m "mp4" = false)
    (h7 : strContains m "mpeg" = false) (h8 : strContains m "ogg" = false)
    (h9 : strContains m "opus" = false)
    (h10 : strContains m "pdf" = false) :
    strEndsWith (buildMediaDescriptor cfg (some "image/png") nowMs
      rand).filename ".png" = true
    ∧ strStartsWith (buildMediaDescriptor cfg (some "image/png") nowMs
      rand).url cfg.publicBaseUrl = true
    ∧ (buildMediaDescriptor cfg (some "image/png") nowMs rand).mimeType
        = "image/png"
    ∧ strEndsWith (buildMediaDescriptor cfg none nowMs rand).filename
        ".bin" = true
    ∧ strEndsWith (buildMediaDescriptor cfg (some m) nowMs rand).filename
        ".bin" = true := by
  have hmime : jsOrStrS (some "image/png") "application/octet-stream"
      = "image/png" := by decide
  have hext : guessExt (some "image/png") = "png" := by decide
  have hmimeN : jsOrStrS none "application/octet-stream"
      = "application/octet-stream" := rfl
  have hextN : guessExt (some "application/octet-stream") = "bin" := by
    decide
  have hmimeM : jsOrStrS (some m) "application/octet-stream" = m := by
    simp [jsOrStrS, hne]
  have hextM : guessExt (some m) = "bin" := by
    simp [guessExt, hne, h1, h2, h3, h4, h5, h6, h7, h8, h9, h10]
  refine ⟨?_, ?_, ?_, ?_, ?_⟩
  · rw [show (buildMediaDescriptor cfg (some "image/png") nowMs
          rand).filename
        = toString nowMs ++ "-" ++ rand ++ "." ++ "png" from by
      simp [buildMediaDescriptor, hmime, hext]]
    rw [show (".png" : String) = "." ++ "png" from by decide]
    exact strEndsWith_dot_ext _ _
  · rw [show (buildMediaDescriptor cfg (some "image/png") nowMs rand).url
        = cfg.publicBaseUrl ++ "/media/"
            ++ (buildMediaDescriptor cfg (some "image/png") nowMs
                rand).filename from by
      simp [buildMediaDescriptor]]
    exact strStartsWith_append_append _ _ _
  · simp [buildMediaDescriptor, hmime]
  · rw [show (buildMediaDescriptor cfg none nowMs rand).filename
        = toString nowMs ++ "-" ++ rand ++ "." ++ "bin" from by
      simp [buildMediaDescriptor, hmimeN, hextN]]
    rw [show (".bin" : String) = "." ++ "bin" from by decide]
    exact strEndsWith_dot_ext _ _
  · rw [show (buildMediaDescriptor cfg (some m) nowMs rand).filename
        = toString nowMs ++ "-" ++ rand ++ "." ++ "bin" from by
      simp [buildMediaDescriptor, hmimeM, hextM]]
    rw [show (".bin" : String) = "." ++ "bin" from by decide]
    exact strEndsWith_dot_ext _ _

/-- C9 witness: the descriptor properties at a concrete configuration,
timestamp, random suffix and a concrete unknown MIME type. -/
theorem C9_media_descriptor_witness :
    ("application/x-zuria" : String) ≠ ""
    ∧ strContains "application/x-zuria" "jpeg" = false
    ∧ strContains "application/x-zuria" "jpg" = false
    ∧ strContains "application/x-zuria" "png" = false
    ∧ strContains "application/x-zuria" "webp" = false
    ∧ strContains "application/x-zuria" "gif" = false
    ∧ strContains "application/x-zuria" "mp4" = false
    ∧ strContains "application/x-zuria" "mpeg" = false
    ∧ strContains "application/x-zuria" "ogg" = false
    ∧ strContains "application/x-zuria" "opus" = false
    ∧ strContains "application/x-zuria" "pdf" = false
    ∧ (strEndsWith (buildMediaDescriptor sampleConfig (some "image/png")
        1700000000000 "ab12cd").filename ".png" = true
      ∧ strStartsWith (buildMediaDescriptor sampleConfig (some "image/png")
        1700000000000 "ab12cd").url sampleConfig.publicBaseUrl = true
      ∧ (buildMediaDescriptor sampleConfig (some "image/png") 1700000000000
          "ab12cd").mimeType = "image/png"
      ∧ strEndsWith (buildMediaDescriptor sampleConfig none 1700000000000
          "ab12cd").filename ".bin" = true
      ∧ strEndsWith (buildMediaDescriptor sampleConfig
          (some "application/x-zuria") 1700000000000 "ab12cd").filename
          ".bin" = true) :=
  ⟨by decide, by decide, by decide, by decide, by decide, by decide,
    by decide, by decide, by decide, by decide, by decide,
    C9_media_descriptor sampleConfig 1700000000000 "ab12cd"
      "application/x-zuria" (by decide) (by decide) (by decide) (by decide)
      (by decide) (by decide) (by decide) (by decide) (by decide)
      (by decide) (by decide)⟩

end ZuriaWa

namespace ZuriaWa

/-- C3 counterexample: the outbound path has no pacing at all.  Two sends
enqueued 1000 ms apart for a session whose per-minute cap would be N = 1
are both executed against the transport at their arrival instants: the
second (the N+1-th) send is dispatched at 1000 ms, long before the rolling
one-minute window that opened at 0 ms could reset at 60000 ms, and no
rolling counter, minimum interval or jitter delays it. -/
theorem C3_counterexample :
    (processSendBurst sampleConfig burstDir burstRequests).map
        (fun t => t.dispatchedAtMs) = [0, 1000]
    ∧ (1000 : Nat) < 60000 := by
  decide

/-- C3 amended: `POST /messages` dispatches every accepted send to the
transport immediately and in request order — each send's dispatch instant
equals its request's arrival instant, with no per-minute counter, window
reset, minimum interval or jitter anywhere on the outbound path. -/
theorem C3_amended_sends_dispatch_immediately (cfg : Config)
    (dir : Directory) (reqs : List SendRequest)
    (hok : ∀ r ∈ reqs, apiKeyRejected cfg r.apiKeyHeader = false
        ∧ ∃ s, r.sessionId.bind (mapGet dir) = some s
            ∧ s.hasSock = true) :
    (processSendBurst cfg dir reqs).map (fun t => t.dispatchedAtMs)
      = reqs.map (fun r => r.arrivalMs) := by
  induction reqs with
  | nil => rfl
  | cons r rest ih =>
    obtain ⟨hkey, s, hs, hsock⟩ := hok r (List.mem_cons_self r rest)
    have hrest := ih (fun q hq => hok q (List.mem_cons_of_mem r hq))
    have hhead : (postMessagesHandler cfg dir r.apiKeyHeader r.sessionId
        r.toField r.text r.arrivalMs).sends
        = [{ jid := digitsOnly (jsString r.toField) ++ "@s.whatsapp.net"
           , text := jsOrStrS r.text ""
           , dispatchedAtMs := r.arrivalMs }] := by
      simp [postMessagesHandler, hkey, hs, hsock]
    simp only [processSendBurst, List.map_cons, List.flatten_cons,
      List.map_append, hhead] at hrest ⊢
    simp [hrest]

/-- C3 amended witness: the two-request burst dispatches at exactly the
arrival instants 0 and 1000. -/
theorem C3_amended_sends_dispatch_immediately_witness :
    (∀ r ∈ burstRequests,
      apiKeyRejected sampleConfig r.apiKeyHeader = false
      ∧ ∃ s, r.sessionId.bind (mapGet burstDir) = some s
          ∧ s.hasSock = true)
    ∧ (processSendBurst sampleConfig burstDir burstRequests).map
        (fun t => t.dispatchedAtMs)
      = burstRequests.map (fun r => r.arrivalMs) := by
  have hok : ∀ r ∈ burstRequests,
      apiKeyRejected sampleConfig r.apiKeyHeader = false
      ∧ ∃ s, r.sessionId.bind (mapGet burstDir) = some s
          ∧ s.hasSock = true := by
    intro r hr
    rcases List.mem_cons.mp hr with rfl | hr2
    · exact ⟨by decide, (startSession sampleConfig "s-3" [3, 14] 0).state,
        by decide, by decide⟩
    · rcases List.mem_cons.mp hr2 with rfl | hr3
      · exact ⟨by decide, (startSession sampleConfig "s-3" [3, 14] 0).state,
          by decide, by decide⟩
      · cases hr3
  exact ⟨hok,
    C3_amended_sends_dispatch_immediately sampleConfig burstDir
      burstRequests hok⟩

end ZuriaWa

namespace ZuriaWa

theorem mem_insertByTsDesc (c x : ChatLite) (l : List ChatLite)
    (hx : x ∈ insertByTsDesc c l) : x = c ∨ x ∈ l := by
  induction l with
  | nil => simpa [insertByTsDesc] using hx
  | cons d ds ih =>
    by_cases hcd : tsOfChat d ≤ tsOfChat c
    · rw [show insertByTsDesc c (d :: ds) = c :: d :: ds from by
        simp [insertByTsDesc, hcd]] at hx
      rcases List.mem_cons.mp hx with rfl | hx2
      · exact Or.inl rfl
      · exact Or.inr hx2
    · rw [show insertByTsDesc c (d :: ds) = d :: insertByTsDesc c ds from by
        simp [insertByTsDesc, hcd]] at hx
      rcases List.mem_cons.mp hx with rfl | hx2
      · exact Or.inr (List.mem_cons_self _ _)
      · rcases ih hx2 with h | h
        · exact Or.inl h
        · exact Or.inr (List.mem_cons_of_mem _ h)

theorem insertByTsDesc_pairwise (c : ChatLite) (l : List ChatLite)
    (h : l.Pairwise (fun a b => tsOfChat b ≤ tsOfChat a)) :
    (insertByTsDesc c l).Pairwise (fun a b => tsOfChat b ≤ tsOfChat a) := by
  induction l with
  | nil => simp [insertByTsDesc]
  | cons d ds ih =>
    rcases List.pairwise_cons.mp h with ⟨hd, hds⟩
    by_cases hcd : tsOfChat d ≤ tsOfChat c
    · rw [show insertByTsDesc c (d :: ds) = c :: d :: ds from by
        simp [insertByTsDesc, hcd]]
      refine List.pairwise_cons.mpr ⟨?_, h⟩
      intro x hx
      rcases List.mem_cons.mp hx with rfl | hx2
      · exact hcd
      · exact le_trans (hd x hx2) hcd
    · rw [show insertByTsDesc c (d :: ds) = d :: insertByTsDesc c ds from by
        simp [insertByTsDesc, hcd]]
      refine List.pairwise_cons.mpr ⟨?_, ih hds⟩
      intro x hx
      rcases mem_insertByTsDesc c x ds hx with rfl | hx2
      · exact le_of_not_le hcd
      · exact hd x hx2

theorem sortByTsDesc_pairwise (l : List ChatLite) :
    (sortByTsDesc l).Pairwise (fun a b => tsOfChat b ≤ tsOfChat a) := by
  induction l with
  | nil => simp [sortByTsDesc]
  | cons c cs ih => exact insertByTsDesc_pairwise c _ ih

/-- C4 counterexample: over the 5 chats with distinct timestamps and
`limit = 2`, the first two calls return 2 + 2 items, but the third call
returns the last 1 item with a NON-null cursor (the last item's
timestamp): the next cursor is null exactly when the returned page is
empty, not when the result set is exhausted, so the claimed
"third call returns the last 1 item with a null cursor" is false. -/
theorem C4_counterexample :
    (listChats fiveChats (some 2) (some 20000)).chats.length = 1
    ∧ (listChats fiveChats (some 2) (some 20000)).nextBeforeTs
        = some 10000
    ∧ ¬ (listChats fiveChats (some 2) (some 20000)).nextBeforeTs
        = none := by
  decide

/-- C4 amended: `listChats` returns chats sorted by activity timestamp
descending, keeps only chats strictly before the cursor when a positive
one is given, truncates to the clamped limit, and returns a next cursor
equal to the last returned item's timestamp — null exactly when the
returned page is EMPTY (so exhaustion only shows on the following call):
over 5 chats with distinct timestamps and limit 2 the calls return
2 + 2 + 1 items whose cursors are all non-null, and a fourth call returns
an empty page with a null cursor. -/
theorem C4_amended_listChats (chats : MapSL ChatLite)
    (qLimit qBeforeTs : Option Nat) :
    ((listChats chats qLimit qBeforeTs).chats.Pairwise
        (fun a b => b.lastTsMs ≤ a.lastTsMs))
    ∧ ((listChats chats qLimit qBeforeTs).nextBeforeTs = none
        ↔ (listChats chats qLimit qBeforeTs).chats = [])
    ∧ ((listChats chats qLimit qBeforeTs).chats.length
        ≤ min (jsOrNat qLimit 20) 50)
    ∧ (∀ v ∈ (listChats chats qLimit qBeforeTs).chats,
        0 < qBeforeTs.getD 0 → v.lastTsMs < qBeforeTs.getD 0)
    ∧ ((listChats fiveChats (some 2) none).chats.map (fun v => v.lastTsMs)
        = [50000, 40000]
      ∧ (listChats fiveChats (some 2) none).nextBeforeTs = some 40000
      ∧ (listChats fiveChats (some 2) (some 40000)).chats.map
          (fun v => v.lastTsMs) = [30000, 20000]
      ∧ (listChats fiveChats (some 2) (some 40000)).nextBeforeTs
          = some 20000
      ∧ (listChats fiveChats (some 2) (some 20000)).chats.map
          (fun v => v.lastTsMs) = [10000]
      ∧ (listChats fiveChats (some 2) (some 20000)).nextBeforeTs
          = some 10000
      ∧ (listChats fiveChats (some 2) (some 10000)).chats = []
      ∧ (listChats fiveChats (some 2) (some 10000)).nextBeforeTs
          = none) := by
  have hsorted := sortByTsDesc_pairwise (chats.map (fun p => p.2))
  have hpage : ∀ bts limit : Nat,
      ((if 0 < bts then
          (sortByTsDesc (chats.map (fun p => p.2))).filter
            (fun c => tsOfChat c * 1000 < bts)
        else sortByTsDesc (chats.map (fun p => p.2))).take limit).Pairwise
        (fun a b => tsOfChat b ≤ tsOfChat a) := by
    intro bts limit
    apply List.Pairwise.sublist (List.take_sublist _ _)
    by_cases hb : 0 < bts
    · simpa [hb] using hsorted.filter _
    · simpa [hb] using hsorted
  refine ⟨?_, ?_, ?_, ?_, by decide⟩
  · simp only [listChats, List.pairwise_map]
    exact (hpage _ _).imp (fun h => Nat.mul_le_mul_right 1000 h)
  · simp only [listChats]
    cases hp : (if 0 < qBeforeTs.getD 0 then
        (sortByTsDesc (chats.map (fun p => p.2))).filter
          (fun c => tsOfChat c * 1000 < qBeforeTs.getD 0)
      else sortByTsDesc (chats.map (fun p => p.2))).take
        (min (jsOrNat qLimit 20) 50) with
    | nil => simp [hp]
    | cons a l => simp [hp]
  · simp only [listChats, List.length_map, List.length_take]
    exact min_le_left _ _
  · intro v hv hb
    simp only [listChats, List.mem_map] at hv
    obtain ⟨c, hc, rfl⟩ := hv
    have hc2 := (List.take_sublist _ _).subset hc
    rw [if_pos hb] at hc2
    have := (List.mem_filter.mp hc2).2
    simpa [chatViewOf] using this

end ZuriaWa

namespace ZuriaWa

/-! ### Helper lemmas for the conversation-index invariants -/

theorem jsTruthyStr_some (a : Option String) (h : jsTruthyStr a = true) :
    ∃ w, a = some w := by
  cases a with
  | none => simp [jsTruthyStr] at h
  | some s => exact ⟨s, rfl⟩

theorem applyChatUpsert_nodup (chats : MapSL ChatLite) (c : ChatUpsert)
    (h : (mapKeys chats).Nodup) :
    (mapKeys (applyChatUpsert chats c)).Nodup := by
  simp only [applyChatUpsert]
  exact mapKeys_mapSet_nodup _ _ _ h

theorem applyChatUpdate_nodup (chats : MapSL ChatLite) (u : ChatUpdate)
    (h : (mapKeys chats).Nodup) :
    (mapKeys (applyChatUpdate chats u)).Nodup := by
  simp only [applyChatUpdate]
  exact mapKeys_mapSet_nodup _ _ _ h

theorem applyMessageChatTouch_nodup (chats : MapSL ChatLite) (jid : String)
    (ts : Option Nat) (h : (mapKeys chats).Nodup) :
    (mapKeys (applyMessageChatTouch chats jid ts)).Nodup := by
  simp only [applyMessageChatTouch]
  exact mapKeys_mapSet_nodup _ _ _ h

theorem applyContactUpsert_nodup (chats : MapSL ChatLite)
    (contacts : MapSL ContactEntry) (c : ContactUpsert)
    (h : (mapKeys chats).Nodup) :
    (mapKeys (applyContactUpsert chats contacts c).1).Nodup := by
  simp only [applyContactUpsert]
  cases hg : mapGet chats c.id with
  | none => simpa [hg] using h
  | some chat =>
    by_cases hcond : (!(jsTruthyStr chat.name)
        && jsTruthyStr (jsOrStr c.notify c.name)) = true
    · simp only [hg, hcond, if_true]
      exact mapKeys_mapSet_nodup _ _ _ h
    · simp only [hg, Bool.not_eq_true] at hcond ⊢
      simpa [hcond] using h

theorem chatUpsert_keeps_known_name (chats : MapSL ChatLite)
    (c : ChatUpsert) (jid : String)
    (h : ∃ ch, mapGet chats jid = some ch ∧ ∃ v, ch.name = some v) :
    ∃ ch2, mapGet (applyChatUpsert chats c) jid = some ch2
      ∧ ∃ w, ch2.name = some w := by
  obtain ⟨ch, hget, v, hname⟩ := h
  by_cases hid : jid = c.id
  · subst hid
    simp only [applyChatUpsert, hget, Option.getD_some]
    refine ⟨_, mapGet_mapSet_self _ _ _, ?_⟩
    cases hcn : c.name with
    | some w => exact ⟨w, by simp [hcn]⟩
    | none => exact ⟨v, by simp [hcn, hname]⟩
  · refine ⟨ch, ?_, v, hname⟩
    simp only [applyChatUpsert]
    rw [mapGet_mapSet_other _ _ _ _ hid]
    exact hget

theorem chatUpdate_keeps_known_name (chats : MapSL ChatLite)
    (u : ChatUpdate) (jid : String) (hu : u.name ≠ some none)
    (h : ∃ ch, mapGet chats jid = some ch ∧ ∃ v, ch.name = some v) :
    ∃ ch2, mapGet (applyChatUpdate chats u) jid = some ch2
      ∧ ∃ w, ch2.name = some w := by
  obtain ⟨ch, hget, v, hname⟩ := h
  by_cases hid : jid = u.id
  · subst hid
    simp only [applyChatUpdate, hget, Option.getD_some]
    refine ⟨_, mapGet_mapSet_self _ _ _, ?_⟩
    cases hun : u.name with
    | none => exact ⟨v, by simp [hname]⟩
    | some nv =>
      cases nv with
      | none => exact absurd hun hu
      | some w => exact ⟨w, by simp⟩
  · refine ⟨ch, ?_, v, hname⟩
    simp only [applyChatUpdate]
    rw [mapGet_mapSet_other _ _ _ _ hid]
    exact hget

theorem contactUpsert_keeps_known_name (chats : MapSL ChatLite)
    (contacts : MapSL ContactEntry) (c : ContactUpsert) (jid : String)
    (h : ∃ ch, mapGet chats jid = some ch ∧ ∃ v, ch.name = some v) :
    ∃ ch2, mapGet (applyContactUpsert chats contacts c).1 jid = some ch2
      ∧ ∃ w, ch2.name = some w := by
  obtain ⟨ch, hget, v, hname⟩ := h
  simp only [applyContactUpsert]
  cases hg : mapGet chats c.id with
  | none => exact ⟨ch, hget, v, hname⟩
  | some chat =>
    by_cases hcond : (!(jsTruthyStr chat.name)
        && jsTruthyStr (jsOrStr c.notify c.name)) = true
    · simp only [hcond, if_true]
      have htruthy := (Bool.and_eq_true .. |>.mp hcond).2
      obtain ⟨w, hw⟩ := jsTruthyStr_some _ htruthy
      by_cases hid : jid = c.id
      · subst hid
        refine ⟨_, mapGet_mapSet_self _ _ _, w, ?_⟩
        simp [hw]
      · refine ⟨ch, ?_, v, hname⟩
        rw [mapGet_mapSet_other _ _ _ _ hid]
        exact hget
    · simp only [Bool.not_eq_true] at hcond
      simpa [hcond] using ⟨ch, hget, v, hname⟩

theorem messageTouch_keeps_known_name (chats : MapSL ChatLite)
    (jid2 : String) (ts : Option Nat) (jid : String)
    (h : ∃ ch, mapGet chats jid = some ch ∧ ∃ v, ch.name = some v) :
    ∃ ch2, mapGet (applyMessageChatTouch chats jid2 ts) jid = some ch2
      ∧ ∃ w, ch2.name = some w := by
  obtain ⟨ch, hget, v, hname⟩ := h
  by_cases hid : jid = jid2
  · subst hid
    simp only [applyMessageChatTouch, hget, Option.getD_some]
    exact ⟨_, mapGet_mapSet_self _ _ _, v, by simpa using hname⟩
  · refine ⟨ch, ?_, v, hname⟩
    simp only [applyMessageChatTouch]
    rw [mapGet_mapSet_other _ _ _ _ hid]
    exact hget

theorem foldl_chatUpsert_invariant (cs : List ChatUpsert)
    (chats : MapSL ChatLite) (jid : String)
    (hn : (mapKeys chats).Nodup)
    (h : ∃ ch, mapGet chats jid = some ch ∧ ∃ v, ch.name = some v) :
    (mapKeys (cs.foldl applyChatUpsert chats)).Nodup
    ∧ ∃ ch2, mapGet (cs.foldl applyChatUpsert chats) jid = some ch2
        ∧ ∃ w, ch2.name = some w := by
  induction cs generalizing chats with
  | nil => exact ⟨hn, h⟩
  | cons c rest ih =>
    exact ih _ (applyChatUpsert_nodup _ _ hn)
      (chatUpsert_keeps_known_name _ _ _ h)

theorem foldl_chatUpdate_invariant (us : List ChatUpdate)
    (chats : MapSL ChatLite) (jid : String)
    (hu : ∀ u ∈ us, u.name ≠ some none)
    (hn : (mapKeys chats).Nodup)
    (h : ∃ ch, mapGet chats jid = some ch ∧ ∃ v, ch.name = some v) :
    (mapKeys (us.foldl applyChatUpdate chats)).Nodup
    ∧ ∃ ch2, mapGet (us.foldl applyChatUpdate chats) jid = some ch2
        ∧ ∃ w, ch2.name = some w := by
  induction us generalizing chats with
  | nil => exact ⟨hn, h⟩
  | cons u rest ih =>
    exact ih _ (fun q hq => hu q (List.mem_cons_of_mem u hq))
      (applyChatUpdate_nodup _ _ hn)
      (chatUpdate_keeps_known_name _ _ _
        (hu u (List.mem_cons_self u rest)) h)

theorem foldl_contactUpsert_invariant (cs : List ContactUpsert)
    (st : MapSL ChatLite × MapSL ContactEntry) (jid : String)
    (hn : (mapKeys st.1).Nodup)
    (h : ∃ ch, mapGet st.1 jid = some ch ∧ ∃ v, ch.name = some v) :
    (mapKeys ((cs.foldl (fun p c => applyContactUpsert p.1 p.2 c)
        st).1)).Nodup
    ∧ ∃ ch2, mapGet ((cs.foldl (fun p c => applyContactUpsert p.1 p.2 c)
        st).1) jid = some ch2 ∧ ∃ w, ch2.name = some w := by
  induction cs generalizing st with
  | nil => exact ⟨hn, h⟩
  | cons c rest ih =>
    exact ih _ (applyContactUpsert_nodup _ _ _ hn)
      (contactUpsert_keeps_known_name _ _ _ _ h)

theorem applyIndexEvent_invariant
    (st : MapSL ChatLite × MapSL ContactEntry) (ev : IndexEvent)
    (jid : String)
    (hsafe : ∀ us, ev = IndexEvent.chatsUpdate us →
        ∀ u ∈ us, u.name ≠ some none)
    (hn : (mapKeys st.1).Nodup)
    (h : ∃ ch, mapGet st.1 jid = some ch ∧ ∃ v, ch.name = some v) :
    (mapKeys (applyIndexEvent st ev).1).Nodup
    ∧ ∃ ch2, mapGet (applyIndexEvent st ev).1 jid = some ch2
        ∧ ∃ w, ch2.name = some w := by
  cases ev with
  | chatsUpsert cs =>
    simpa [applyIndexEvent] using
      foldl_chatUpsert_invariant cs st.1 jid hn h
  | chatsUpdate us =>
    simpa [applyIndexEvent] using
      foldl_chatUpdate_invariant us st.1 jid (hsafe us rfl) hn h
  | contactsUpsert cs =>
    simpa [applyIndexEvent] using
      foldl_contactUpsert_invariant cs st jid hn h
  | messageTouch jid2 ts =>
    refine ⟨applyMessageChatTouch_nodup _ _ _ hn, ?_⟩
    simpa [applyIndexEvent] using
      messageTouch_keeps_known_name st.1 jid2 ts jid h

/-- C5 counterexample: a chat whose display name is already known
(`"Alice"`) has that name overwritten with an unknown (null) one by a
`chats.update` event explicitly carrying `name: null` — the source spreads
`...(u.name !== undefined ? { name: u.name } : {})`, which lets an
explicit null through; the claimed invariant over every event sequence is
therefore false. -/
theorem C5_counterexample :
    (mapGet namedChat "77777@s.whatsapp.net").map (fun c => c.name)
      = some (some "Alice")
    ∧ (mapGet (applyIndexEvents (namedChat, [])
        [IndexEvent.chatsUpdate
          [{ id := "77777@s.whatsapp.net", name := some none
           , subject := none, conversationTimestamp := none }]]).1
        "77777@s.whatsapp.net").map (fun c => c.name)
      = some none := by
  decide

/-- C5 amended: for every sequence of chat upserts, chat updates, contact
upserts and inbound-message touches, upserting an already-present chat id
never creates a duplicate entry (the keyed map keeps its keys
duplicate-free); and as long as no `chats.update` element explicitly
carries a null name — absent name fields and the other three event kinds
can never do it — a chat entry whose display name is known (non-null)
keeps a non-null name. -/
theorem C5_amended_index_invariants
    (st : MapSL ChatLite × MapSL ContactEntry) (evs : List IndexEvent)
    (jid : String)
    (hsafe : ∀ ev ∈ evs, ∀ us, ev = IndexEvent.chatsUpdate us →
        ∀ u ∈ us, u.name ≠ some none)
    (hn : (mapKeys st.1).Nodup)
    (h : ∃ ch, mapGet st.1 jid = some ch ∧ ∃ v, ch.name = some v) :
    (mapKeys (applyIndexEvents st evs).1).Nodup
    ∧ ∃ ch2, mapGet (applyIndexEvents st evs).1 jid = some ch2
        ∧ ∃ w, ch2.name = some w := by
  induction evs generalizing st with
  | nil => exact ⟨hn, h⟩
  | cons ev rest ih =>
    have hstep := applyIndexEvent_invariant st ev jid
      (fun us heq => hsafe ev (List.mem_cons_self ev rest) us heq) hn h
    exact ih _ (fun q hq => hsafe q (List.mem_cons_of_mem ev hq))
      hstep.1 hstep.2

/-- C5 amended witness: the invariant at a concrete store holding the
named chat, across one upsert, one contact upsert and one message
touch. -/
theorem C5_amended_index_invariants_witness :
    (∀ ev ∈ [ IndexEvent.chatsUpsert
                [{ id := "77777@s.whatsapp.net", name := none
                 , subject := none, conversationTimestamp := some 6 }]
            , IndexEvent.contactsUpsert
                [{ id := "77777@s.whatsapp.net", notify := some "Ally"
                 , name := none }]
            , IndexEvent.messageTouch "77777@s.whatsapp.net" (some 9) ],
        ∀ us, ev = IndexEvent.chatsUpdate us →
          ∀ u ∈ us, u.name ≠ some none)
    ∧ (mapKeys namedChat).Nodup
    ∧ (∃ ch, mapGet namedChat "77777@s.whatsapp.net" = some ch
        ∧ ∃ v, ch.name = some v)
    ∧ ((mapKeys (applyIndexEvents (namedChat, [])
          [ IndexEvent.chatsUpsert
              [{ id := "77777@s.whatsapp.net", name := none
               , subject := none, conversationTimestamp := some 6 }]
          , IndexEvent.contactsUpsert
              [{ id := "77777@s.whatsapp.net", notify := some "Ally"
               , name := none }]
          , IndexEvent.messageTouch "77777@s.whatsapp.net"
              (some 9) ]).1).Nodup
      ∧ ∃ ch2, mapGet (applyIndexEvents (namedChat, [])
          [ IndexEvent.chatsUpsert
              [{ id := "77777@s.whatsapp.net", name := none
               , subject := none, conversationTimestamp := some 6 }]
          , IndexEvent.contactsUpsert
              [{ id := "77777@s.whatsapp.net", notify := some "Ally"
               , name := none }]
          , IndexEvent.messageTouch "77777@s.whatsapp.net"
              (some 9) ]).1 "77777@s.whatsapp.net" = some ch2
        ∧ ∃ w, ch2.name = some w) := by
  have hsafe : ∀ ev ∈ [ IndexEvent.chatsUpsert
                [{ id := "77777@s.whatsapp.net", name := none
                 , subject := none, conversationTimestamp := some 6 }]
            , IndexEvent.contactsUpsert
                [{ id := "77777@s.whatsapp.net", notify := some "Ally"
                 , name := none }]
            , IndexEvent.messageTouch "77777@s.whatsapp.net" (some 9) ],
      ∀ us, ev = IndexEvent.chatsUpdate us →
        ∀ u ∈ us, u.name ≠ some none := by
    intro ev hev us heq
    rcases List.mem_cons.mp hev with rfl | h2
    · exact IndexEvent.noConfusion heq
    · rcases List.mem_cons.mp h2 with rfl | h3
      · exact IndexEvent.noConfusion heq
      · rcases List.mem_cons.mp h3 with rfl | h4
        · exact IndexEvent.noConfusion heq
        · cases h4
  have hname : ∃ ch, mapGet namedChat "77777@s.whatsapp.net" = some ch
      ∧ ∃ v, ch.name = some v :=
    ⟨{ id := "77777@s.whatsapp.net", name := some "Alice", subject := none
     , conversationTimestamp := some 5 }, by decide, "Alice", rfl⟩
  exact ⟨hsafe, by decide, hname,
    C5_amended_index_invariants (namedChat, []) _ "77777@s.whatsapp.net"
      hsafe (by decide) hname⟩

end ZuriaWa

namespace ZuriaWa

/-- C8 amended witness: the general short-digit-run conjunct instantiated
at the concrete jid `"1@x"`. -/
theorem C8_amended_open_event_witness :
    ((("1@x" : String).data.takeWhile Char.isDigit).length < 5)
    ∧ extractPhoneFromJid (some "1@x") = none :=
  ⟨by decide, C8_amended_open_event.1 "1@x" (by decide)⟩

/-- C4 amended witness: the cursor-filter conjunct instantiated at the
concrete second page over the five-chat store. -/
theorem C4_amended_listChats_witness :
    ({ chatJid := "33333@s.whatsapp.net", chatNumber := some "33333"
     , chatName := some "C", lastTsMs := 30000 } : ChatView)
        ∈ (listChats fiveChats (some 2) (some 40000)).chats
    ∧ 0 < (some 40000 : Option Nat).getD 0
    ∧ (({ chatJid := "33333@s.whatsapp.net", chatNumber := some "33333"
        , chatName := some "C", lastTsMs := 30000 } : ChatView).lastTsMs
        < (some 40000 : Option Nat).getD 0) :=
  ⟨by decide, by decide,
    (C4_amended_listChats fiveChats (some 2) (some 40000)).2.2.2.1
      { chatJid := "33333@s.whatsapp.net", chatNumber := some "33333"
      , chatName := some "C", lastTsMs := 30000 }
      (by decide) (by decide)⟩

end ZuriaWa
